import Mathlib

/-!
Verification of the TeachMate service worker (`src/service-worker.js`)
against its natural-language specification.

The worker is shallowly embedded: the cache storage (`caches`) is an
association list from generation names to per-generation association lists
from request keys (URLs) to captured responses; the network is a function
from URL to a fetch outcome (`ok response` when the fetch promise resolves
with a response of any status, `err` when it rejects); each strategy
(`networkFirst`, `cacheFirst`, `networkWithFallback`) is a pure function
returning the response served (`none` models a request that resolves with
no response, i.e. terminal failure), the updated cache store, and a trace
of observable effects (network fetch invocations, cache opens and writes,
`skipWaiting` calls).
-/

set_option autoImplicit false

namespace TeachmateSW

/-- A captured HTTP response: status, headers and body bytes
(`ResponseEntry` in the spec's data model). Responses are immutable
values, so the copy stored by `cache.put(req, fresh.clone())` and the
copy returned to the caller are independently readable by construction. -/
structure Response where
  status : Nat
  headers : List (String × String)
  body : List Nat
  deriving DecidableEq, Repr

/-- An intercepted request, with the fields the worker inspects:
`method`, `url.origin`, `url.pathname`, `request.destination`, and the
full URL used as the cache key (`RequestKey`). -/
structure Request where
  method : String
  origin : String
  pathname : String
  destination : String
  url : String
  deriving DecidableEq, Repr

/-- Outcome of `fetch(req)`: the promise resolves with a response of any
status (`ok`), or rejects (`err`, the spec's `NetworkError` for an
unreachable fetch). -/
inductive NetResult where
  | ok (r : Response)
  | err
  deriving DecidableEq, Repr

/-- The network transport capability: URL to fetch outcome. -/
abbrev Network : Type := String → NetResult

/-- One generation: an association list from request key to stored
response, first match wins on lookup. -/
abbrev Cache : Type := List (String × Response)

/-- The whole cache storage: named generations in creation order. -/
abbrev CacheStore : Type := List (String × Cache)

/-- Observable effects of a handler, recorded in order. -/
inductive SWEffect where
  | skipWaiting : SWEffect
  | openGen (name : String) : SWEffect
  | fetch (url : String) : SWEffect
  | put (gen : String) (key : String) : SWEffect
  | deleteGen (name : String) : SWEffect
  deriving DecidableEq, Repr

/-- `SW_VERSION` constant (line 11 of the source). -/
def SW_VERSION : String := "teachmate-sw-v3.0.0"

/-- `APP_SHELL_CACHE` constant (line 13): the `shell` generation's name. -/
def APP_SHELL_CACHE : String := "teachmate-shell-v3"

/-- `RUNTIME_CACHE` constant (line 14): the `runtime` generation's name. -/
def RUNTIME_CACHE : String := "teachmate-runtime-v3"

/-- `APP_SHELL` (lines 16-20): the ShellManifest path list. -/
def APP_SHELL : List String := ["/", "/manifest.json", "/offline.html"]

/-- Lookup of a key in one generation (`cache.match`). -/
def cacheLookup (key : String) : Cache → Option Response
  | [] => none
  | e :: es => if e.1 == key then some e.2 else cacheLookup key es

/-- `cache.put(key, r)` inside one generation: replaces the entry for
`key` if present, else appends it. -/
def cacheInsert (c : Cache) (key : String) (r : Response) : Cache :=
  match c with
  | [] => [(key, r)]
  | e :: es => if e.1 == key then (key, r) :: es else e :: cacheInsert es key r

/-- `caches.open(name)`: returns the store with the named generation
present, creating it (empty, at the end, i.e. in creation order) when
absent. -/
def cachesOpen (s : CacheStore) (name : String) : CacheStore :=
  match s with
  | [] => [(name, [])]
  | g :: gs => if g.1 == name then g :: gs else g :: cachesOpen gs name

/-- `cache.put` lifted to the store: write `key ↦ r` into the named
generation. -/
def storePut (s : CacheStore) (name key : String) (r : Response) : CacheStore :=
  s.map fun g => if g.1 == name then (g.1, cacheInsert g.2 key r) else g

/-- Lookup of a key in one named generation of the store (the first
generation carrying that name). -/
def genMatch : CacheStore → String → String → Option Response
  | [], _, _ => none
  | g :: gs, name, key =>
      if g.1 == name then cacheLookup key g.2 else genMatch gs name key

/-- The global `caches.match(key)`: searches every generation in creation
order, first hit wins. -/
def cachesMatch (s : CacheStore) (key : String) : Option Response
  := match s with
  | [] => none
  | g :: gs =>
      match cacheLookup key g.2 with
      | some r => some r
      | none => cachesMatch gs key

/-- `caches.keys()`. -/
def cachesKeys (s : CacheStore) : List String := s.map (·.1)

/-- `response.ok`: status in the 2xx range. -/
def responseOk (r : Response) : Bool := 200 ≤ r.status && r.status < 300

/-- `url.origin.includes(pat)` helper: does `hay` start with `pat`? -/
def leadsWith : List Char → List Char → Bool
  | [], _ => true
  | _ :: _, [] => false
  | a :: as, b :: bs => a == b && leadsWith as bs

/-- Does the character list contain `pat` as a contiguous run? -/
def hasSub (pat : List Char) : List Char → Bool
  | [] => leadsWith pat []
  | c :: cs => leadsWith pat (c :: cs) || hasSub pat cs

/-- JavaScript `s.includes(pat)`: substring containment. -/
def strIncludes (s pat : String) : Bool := hasSub pat.data s.data

/-- The bypass-origin test of the fetch handler (lines 67-71):
`url.origin.includes('googleapis') || url.origin.includes('firebase') ||
url.origin.includes('gstatic')`. -/
def bypassOrigin (origin : String) : Bool :=
  strIncludes origin "googleapis" || strIncludes origin "firebase" ||
    strIncludes origin "gstatic"

/-- The policy tags of the spec's classifier. -/
inductive PolicyTag where
  | PASS_THROUGH | SHELL_RESOURCE | STATIC_ASSET | DYNAMIC_RESOURCE
  deriving DecidableEq, Repr

/-- The classification decision chain of the fetch handler (lines 59-93),
in source order: non-GET and bypass origins are never intercepted
(`PASS_THROUGH`), then manifest paths / the root document
(`SHELL_RESOURCE`), then image/font/style destinations (`STATIC_ASSET`),
else `DYNAMIC_RESOURCE`. -/
def classify (req : Request) : PolicyTag :=
  if req.method ≠ "GET" then .PASS_THROUGH
  else if bypassOrigin req.origin then .PASS_THROUGH
  else if APP_SHELL.contains req.pathname || req.pathname == "/" then .SHELL_RESOURCE
  else if req.destination == "image" || req.destination == "font" ||
      req.destination == "style" then .STATIC_ASSET
  else .DYNAMIC_RESOURCE

/-- Result of running one strategy: the response served (`none` when the
request ends with no response at all, the spec's terminal `Failed`), the
cache store afterwards, and the effect trace. -/
structure StratResult where
  response : Option Response
  store : CacheStore
  trace : List SWEffect
  deriving DecidableEq, Repr

/-- `networkFirst` (lines 99-109): try the network; on success open the
shell generation, store a clone and return the fresh response; when the
fetch rejects, fall back to `caches.match(req)` (note: searched across
every generation), then to `caches.match('/offline.html')`. -/
def networkFirst (net : Network) (s : CacheStore) (req : Request) : StratResult :=
  match net req.url with
  | .ok fresh =>
      let s1 := cachesOpen s APP_SHELL_CACHE
      { response := some fresh
        store := storePut s1 APP_SHELL_CACHE req.url fresh
        trace := [.fetch req.url, .openGen APP_SHELL_CACHE, .put APP_SHELL_CACHE req.url] }
  | .err =>
      match cachesMatch s req.url with
      | some cached => { response := some cached, store := s, trace := [.fetch req.url] }
      | none =>
          { response := cachesMatch s "/offline.html", store := s, trace := [.fetch req.url] }

/-- `cacheFirst` (lines 111-119): `caches.match(req)` (searched across
every generation); on hit return it with no network call; on miss fetch,
store into the runtime generation and return the fresh response. The
fetch is not wrapped in try/catch, so a rejected fetch rejects the whole
request (no response). -/
def cacheFirst (net : Network) (s : CacheStore) (req : Request) : StratResult :=
  match cachesMatch s req.url with
  | some cached => { response := some cached, store := s, trace := [] }
  | none =>
      match net req.url with
      | .ok fresh =>
          let s1 := cachesOpen s RUNTIME_CACHE
          { response := some fresh
            store := storePut s1 RUNTIME_CACHE req.url fresh
            trace := [.fetch req.url, .openGen RUNTIME_CACHE, .put RUNTIME_CACHE req.url] }
      | .err => { response := none, store := s, trace := [.fetch req.url] }

/-- `networkWithFallback` (lines 121-130): try the network; on success
store into the runtime generation and return fresh. On failure the source
(line 128) runs `return caches.match(req) || caches.match('/offline.html')`
with `caches.match(req)` NOT awaited: the operand is a pending Promise,
which is truthy, so the `||` always short-circuits to it and the
offline-document operand is never evaluated. The request therefore
resolves with whatever `caches.match(req)` resolves to — possibly
`undefined` (here `none`). -/
def networkWithFallback (net : Network) (s : CacheStore) (req : Request) : StratResult :=
  match net req.url with
  | .ok fresh =>
      let s1 := cachesOpen s RUNTIME_CACHE
      { response := some fresh
        store := storePut s1 RUNTIME_CACHE req.url fresh
        trace := [.fetch req.url, .openGen RUNTIME_CACHE, .put RUNTIME_CACHE req.url] }
  | .err =>
      { response := cachesMatch s req.url, store := s, trace := [.fetch req.url] }

/-- The fetch handler's dispatch (lines 59-93), branch conditions written
exactly in source order; `none` models returning without `respondWith`
(the request is passed through to the network untouched, with no caching
side effect). -/
def fetchHandler (net : Network) (s : CacheStore) (req : Request) : Option StratResult :=
  if req.method ≠ "GET" then none
  else if bypassOrigin req.origin then none
  else if APP_SHELL.contains req.pathname || req.pathname == "/" then
    some (networkFirst net s req)
  else if req.destination == "image" || req.destination == "font" ||
      req.destination == "style" then some (cacheFirst net s req)
  else some (networkWithFallback net s req)

/-- Does `fetch(p)` resolve with an ok (2xx) response? `cache.addAll`
treats anything else as failure. -/
def fetchGood (net : Network) (p : String) : Bool :=
  match net p with
  | .ok r => responseOk r
  | .err => false

/-- `cache.addAll(paths)` (line 30): fetches every path; if every fetch
resolves with an ok response, stores them all and resolves; if any fetch
rejects or yields a non-ok response, the whole operation rejects and
nothing is stored (the Cache API's all-or-nothing batch semantics). -/
def addAll (net : Network) (paths : List String) (c : Cache) : Option Cache :=
  if paths.all (fetchGood net) then
    some (paths.foldl (fun acc p =>
      match net p with
      | .ok r => cacheInsert acc p r
      | .err => acc) c)
  else none

/-- Result of the install handler: effect trace, cache store afterwards,
and whether `event.waitUntil`'s promise resolved (`ok = false` models a
failed install). -/
structure InstallResult where
  trace : List SWEffect
  store : CacheStore
  ok : Bool
  deriving DecidableEq, Repr

/-- The install handler (lines 25-33): `self.skipWaiting()` first
(unconditionally, before any cache work), then
`caches.open(APP_SHELL_CACHE).then(cache => cache.addAll(APP_SHELL))`. -/
def installHandler (net : Network) (s : CacheStore) : InstallResult :=
  let s1 := cachesOpen s APP_SHELL_CACHE
  let tr := SWEffect.skipWaiting :: SWEffect.openGen APP_SHELL_CACHE ::
    APP_SHELL.map SWEffect.fetch
  match addAll net APP_SHELL ((s1.find? (fun g => g.1 == APP_SHELL_CACHE)).elim [] (·.2)) with
  | some c =>
      { trace := tr ++ APP_SHELL.map (fun p => SWEffect.put APP_SHELL_CACHE p)
        store := s1.map (fun g => if g.1 == APP_SHELL_CACHE then (g.1, c) else g)
        ok := true }
  | none => { trace := tr, store := s1, ok := false }

/-- The activate handler's cache sweep (lines 42-49): for every existing
generation name, delete it unless it is in `expectedNames`; equivalently,
keep exactly the generations whose name is expected. -/
def reclaimStaleGenerations (expectedNames : List String) (s : CacheStore) : CacheStore :=
  s.filter fun g => expectedNames.contains g.1

/-- The activate handler (lines 38-54) runs the sweep with the current
version's names `[APP_SHELL_CACHE, RUNTIME_CACHE]`. -/
def activateHandler (s : CacheStore) : CacheStore :=
  reclaimStaleGenerations [APP_SHELL_CACHE, RUNTIME_CACHE] s

/-- The message handler (lines 151-155): calls `self.skipWaiting()` only
on a `SKIP_WAITING` message. -/
def messageHandler (data : Option String) : List SWEffect :=
  if data == some "SKIP_WAITING" then [SWEffect.skipWaiting] else []

/-- Number of network fetch invocations in a trace. -/
def countFetches (tr : List SWEffect) : Nat :=
  tr.countP fun e => match e with | .fetch _ => true | _ => false

/-- Number of cache writes in a trace. -/
def countPuts (tr : List SWEffect) : Nat :=
  tr.countP fun e => match e with | .put _ _ => true | _ => false

/-! ## Helper lemmas -/

/-- Writing `key ↦ r` into a generation makes `key` look up to `r`. -/
theorem cacheLookup_cacheInsert (c : Cache) (k : String) (r : Response) :
    cacheLookup k (cacheInsert c k r) = some r := by
  induction c with
  | nil => simp [cacheInsert, cacheLookup]
  | cons e es ih =>
      by_cases h : e.1 == k
      · simp [cacheInsert, h, cacheLookup]
      · simp [cacheInsert, h, cacheLookup, ih]

/-- After opening generation `n` and writing `key ↦ r` into it, the
generation's entry for `key` is `r`, whatever the initial store held. -/
theorem genMatch_put_open (s : CacheStore) (n k : String) (r : Response) :
    genMatch (storePut (cachesOpen s n) n k r) n k = some r := by
  induction s with
  | nil => simp [cachesOpen, storePut, genMatch, cacheLookup_cacheInsert]
  | cons g gs ih =>
      by_cases h : g.1 = n
      · simp [cachesOpen, h, storePut, genMatch, cacheLookup_cacheInsert]
      · simp [cachesOpen, h, storePut, genMatch] at ih ⊢
        exact ih

/-! ## Concrete scenarios used by the claims -/

/-- The offline fallback document's captured response. -/
def offlineResp : Response := ⟨200, [], [60, 104, 116, 109, 108, 62]⟩

/-- A previously cached copy of the root document. -/
def goodRoot : Response := ⟨200, [], [2]⟩

/-- A 404 response (resolves, but non-2xx). -/
def resp404 : Response := ⟨404, [], [78]⟩

/-- A cached image response. -/
def logoResp : Response := ⟨200, [], [7]⟩

/-- A fresh network response, distinguishable from every cached one. -/
def altResp : Response := ⟨200, [], [8]⟩

/-- A cached stylesheet response. -/
def cssResp : Response := ⟨200, [], [9]⟩

/-- A successful fetch result body for install scenarios. -/
def okHtml : Response := ⟨200, [], [1]⟩

/-- A network where every fetch rejects. -/
def downNet : Network := fun _ => NetResult.err

/-- A network where every fetch resolves with `altResp`. -/
def altNet : Network := fun _ => NetResult.ok altResp

/-- A network where every fetch resolves with a 404. -/
def net404 : Network := fun _ => NetResult.ok resp404

/-- A network where `/manifest.json` is unreachable and every other path
fetches fine. -/
def partialNet : Network := fun u =>
  if u == "/manifest.json" then NetResult.err else NetResult.ok okHtml

/-- A dynamic API request (not in the manifest, no static destination). -/
def apiReq : Request := ⟨"GET", "https://app.example", "/api/data", "", "/api/data"⟩

/-- A root-document request. -/
def rootReq : Request := ⟨"GET", "https://app.example", "/", "document", "/"⟩

/-- An image request for a path outside the manifest. -/
def logoReq : Request := ⟨"GET", "https://app.example", "/logo.png", "image", "/logo.png"⟩

/-- A stylesheet request for a path outside the manifest. -/
def cssReq : Request := ⟨"GET", "https://app.example", "/app.css", "style", "/app.css"⟩

/-- A manifest path requested with a static-asset destination. -/
def shellImgReq : Request :=
  ⟨"GET", "https://app.example", "/manifest.json", "image", "/manifest.json"⟩

/-- A GET request whose origin merely embeds the substring `firebase`. -/
def sneakyReq : Request := ⟨"GET", "https://notfirebase.app", "/x", "", "/x"⟩

/-- Store with the offline document cached in the shell generation and an
empty runtime generation. -/
def store1 : CacheStore :=
  [(APP_SHELL_CACHE, [("/offline.html", offlineResp)]), (RUNTIME_CACHE, [])]

/-- Store with a good root document and the offline document in the shell
generation. -/
def store3 : CacheStore :=
  [(APP_SHELL_CACHE, [("/", goodRoot), ("/offline.html", offlineResp)]),
   (RUNTIME_CACHE, [])]

/-- Store with a runtime entry for the stylesheet. -/
def store6 : CacheStore :=
  [(APP_SHELL_CACHE, []), (RUNTIME_CACHE, [("/app.css", cssResp)])]

/-- Store where the image is cached only in the shell generation. -/
def store7 : CacheStore :=
  [(APP_SHELL_CACHE, [("/logo.png", logoResp)]), (RUNTIME_CACHE, [])]

/-! ## Claims -/

/-- C1: the claim says a DYNAMIC_RESOURCE request whose fetch fails falls
back to the runtime entry, then to the stored offline document, and is
terminal Failed only when both are absent. In the source (line 128) the
first operand of `caches.match(req) || caches.match('/offline.html')` is
an un-awaited Promise, which is truthy, so the offline-document tier is
never consulted: here the runtime generation is empty, the offline
document IS cached, the network is down, and `networkWithFallback` still
resolves with no response. -/
theorem C1_offline_fallback_dead :
    classify apiReq = PolicyTag.DYNAMIC_RESOURCE ∧
    genMatch store1 RUNTIME_CACHE apiReq.url = none ∧
    cachesMatch store1 "/offline.html" = some offlineResp ∧
    (networkWithFallback downNet store1 apiReq).response = none := by
  refine ⟨by decide, by decide, by decide, by decide⟩

/-- C2 counterexample: with `/manifest.json` unreachable and the other two
manifest paths fetching fine, `cache.addAll` rejects wholesale: install
fails and the successfully fetched `/` is NOT stored in the shell
generation, so population is not best-effort per entry. -/
theorem C2_counterexample :
    fetchGood partialNet "/" = true ∧
    fetchGood partialNet "/manifest.json" = false ∧
    (installHandler partialNet []).ok = false ∧
    genMatch (installHandler partialNet []).store APP_SHELL_CACHE "/" = none := by
  refine ⟨by decide, by decide, by decide, by decide⟩

/-- C2 amended: shell population at install is all-or-nothing, not
best-effort per entry: whenever any manifest path fails to fetch (or
yields a non-ok response), the install rejects and no path at all is
stored — one failing asset blocks all the others. -/
theorem C2_install_all_or_nothing (net : Network) (s : CacheStore)
    (h : APP_SHELL.any (fun p => !fetchGood net p) = true) :
    (installHandler net s).ok = false ∧
    (installHandler net s).store = cachesOpen s APP_SHELL_CACHE := by
  have hall : APP_SHELL.all (fetchGood net) = false := by
    rcases List.any_eq_true.mp h with ⟨p, hp, hbad⟩
    rw [List.all_eq_false]
    exact ⟨p, hp, by simpa using hbad⟩
  simp [installHandler, addAll, hall]

/-- Witness for C2's amended theorem at the partial-failure network. -/
theorem C2_witness :
    APP_SHELL.any (fun p => !fetchGood partialNet p) = true ∧
    ((installHandler partialNet []).ok = false ∧
     (installHandler partialNet []).store = cachesOpen [] APP_SHELL_CACHE) :=
  ⟨by decide, C2_install_all_or_nothing partialNet [] (by decide)⟩

/-- C3 counterexample: the fetch promise resolves for a 404 answer, so
`networkFirst`'s try-branch runs: the non-2xx response is stored into the
shell generation (overwriting the previously cached good root document)
and returned to the caller, instead of being treated as a NetworkError
with the stored shell entry served. -/
theorem C3_counterexample :
    responseOk resp404 = false ∧
    genMatch store3 APP_SHELL_CACHE "/" = some goodRoot ∧
    (networkFirst net404 store3 rootReq).response = some resp404 ∧
    genMatch (networkFirst net404 store3 rootReq).store APP_SHELL_CACHE "/" =
      some resp404 := by
  refine ⟨by decide, by decide, by decide, by decide⟩

/-- C3 amended: a non-2xx response is NOT treated as a network error: for
every SHELL_RESOURCE request whose fetch resolves with a non-2xx response
R, `networkFirst` stores R into the shell generation (overwriting any
prior entry) and returns R; the fallback tiers run only when the fetch
rejects. -/
theorem C3_non2xx_stored (net : Network) (s : CacheStore) (req : Request)
    (r : Response)
    (hnet : net req.url = NetResult.ok r)
    (_hnok : responseOk r = false) :
    (networkFirst net s req).response = some r ∧
    genMatch (networkFirst net s req).store APP_SHELL_CACHE req.url = some r := by
  simp [networkFirst, hnet, genMatch_put_open]

/-- Witness for C3's amended theorem at the 404 network. -/
theorem C3_witness :
    net404 rootReq.url = NetResult.ok resp404 ∧ responseOk resp404 = false ∧
    ((networkFirst net404 store3 rootReq).response = some resp404 ∧
     genMatch (networkFirst net404 store3 rootReq).store APP_SHELL_CACHE rootReq.url =
       some resp404) :=
  ⟨rfl, by decide, C3_non2xx_stored net404 store3 rootReq resp404 rfl (by decide)⟩

/-- C4: any GET request to a non-bypassed origin whose path is in the
ShellManifest classifies as SHELL_RESOURCE, whatever its declared
resource kind: the shell check (line 76) runs before the destination
check (lines 82-86). -/
theorem C4_shell_priority (req : Request)
    (hm : req.method = "GET")
    (hb : bypassOrigin req.origin = false)
    (hp : APP_SHELL.contains req.pathname = true) :
    classify req = PolicyTag.SHELL_RESOURCE := by
  have hp' : req.pathname ∈ APP_SHELL := by simpa using hp
  simp [classify, hm, hb, hp']

/-- Witness for C4: `/manifest.json` requested with destination `image`
(which would otherwise match the static-asset rule) still classifies as
SHELL_RESOURCE. -/
theorem C4_witness :
    shellImgReq.method = "GET" ∧
    bypassOrigin shellImgReq.origin = false ∧
    APP_SHELL.contains shellImgReq.pathname = true ∧
    shellImgReq.destination = "image" ∧
    classify shellImgReq = PolicyTag.SHELL_RESOURCE :=
  ⟨rfl, by decide, by decide, rfl,
    C4_shell_priority shellImgReq rfl (by decide) (by decide)⟩

/-- C5: the activate sweep with expected names `[shell, runtime]` applied
to the generation set `{shell, runtime, shell-v-old}` deletes exactly the
stale generation and keeps the two live generations with their entries
untouched; and the sweep is idempotent on every store. -/
theorem C5_reclaim_exact_idempotent :
    (∀ sc rc oc : Cache,
      reclaimStaleGenerations [APP_SHELL_CACHE, RUNTIME_CACHE]
        [(APP_SHELL_CACHE, sc), (RUNTIME_CACHE, rc), ("teachmate-shell-v-old", oc)] =
        [(APP_SHELL_CACHE, sc), (RUNTIME_CACHE, rc)]) ∧
    (∀ s : CacheStore,
      reclaimStaleGenerations [APP_SHELL_CACHE, RUNTIME_CACHE]
        (reclaimStaleGenerations [APP_SHELL_CACHE, RUNTIME_CACHE] s) =
        reclaimStaleGenerations [APP_SHELL_CACHE, RUNTIME_CACHE] s) := by
  constructor
  · intro sc rc oc
    rfl
  · intro s
    simp [reclaimStaleGenerations, List.filter_filter]

/-- C6: a STATIC_ASSET request with a cache hit is answered from the
cache: `cacheFirst` returns the cached entry, leaves the store unchanged,
invokes the network fetch capability zero times, and performs no cache
write. -/
theorem C6_cacheFirst_hit_no_network (net : Network) (s : CacheStore)
    (req : Request) (c : Response)
    (_hclass : classify req = PolicyTag.STATIC_ASSET)
    (hhit : cachesMatch s req.url = some c) :
    (cacheFirst net s req).response = some c ∧
    (cacheFirst net s req).store = s ∧
    countFetches (cacheFirst net s req).trace = 0 ∧
    countPuts (cacheFirst net s req).trace = 0 := by
  simp [cacheFirst, hhit, countFetches, countPuts]

/-- Witness for C6 at a cached stylesheet, with a network that would
reject every fetch (it is never consulted). -/
theorem C6_witness :
    classify cssReq = PolicyTag.STATIC_ASSET ∧
    cachesMatch store6 cssReq.url = some cssResp ∧
    ((cacheFirst downNet store6 cssReq).response = some cssResp ∧
     (cacheFirst downNet store6 cssReq).store = store6 ∧
     countFetches (cacheFirst downNet store6 cssReq).trace = 0 ∧
     countPuts (cacheFirst downNet store6 cssReq).trace = 0) :=
  ⟨by decide, by decide,
    C6_cacheFirst_hit_no_network downNet store6 cssReq cssResp (by decide) (by decide)⟩

/-- C7 counterexample: the image is cached only in the shell generation
and absent from the runtime generation, yet `cacheFirst` (which calls the
global `caches.match`, searching every generation) treats it as a hit:
it returns the shell entry with zero network fetches, instead of treating
it as a miss and fetching. -/
theorem C7_counterexample :
    classify logoReq = PolicyTag.STATIC_ASSET ∧
    genMatch store7 RUNTIME_CACHE logoReq.url = none ∧
    genMatch store7 APP_SHELL_CACHE logoReq.url = some logoResp ∧
    (cacheFirst altNet store7 logoReq).response = some logoResp ∧
    countFetches (cacheFirst altNet store7 logoReq).trace = 0 := by
  refine ⟨by decide, by decide, by decide, by decide, by decide⟩

/-- C7 amended: `cacheFirst`'s lookup is NOT confined to the runtime
generation: `caches.match` searches every generation, so a STATIC_ASSET
request whose key has an entry only in the shell generation is a cache
hit — the shell entry is returned with zero network fetches. -/
theorem C7_cacheFirst_shell_hit (net : Network) (req : Request) (c : Response)
    (sc rc : Cache)
    (_hclass : classify req = PolicyTag.STATIC_ASSET)
    (hshell : cacheLookup req.url sc = some c)
    (_hruntime : cacheLookup req.url rc = none) :
    (cacheFirst net [(APP_SHELL_CACHE, sc), (RUNTIME_CACHE, rc)] req).response =
      some c ∧
    countFetches
      (cacheFirst net [(APP_SHELL_CACHE, sc), (RUNTIME_CACHE, rc)] req).trace = 0 := by
  have hm : cachesMatch [(APP_SHELL_CACHE, sc), (RUNTIME_CACHE, rc)] req.url = some c := by
    simp [cachesMatch, hshell]
  simp [cacheFirst, hm, countFetches]

/-- Witness for C7's amended theorem at the shell-cached image. -/
theorem C7_witness :
    classify logoReq = PolicyTag.STATIC_ASSET ∧
    cacheLookup logoReq.url [("/logo.png", logoResp)] = some logoResp ∧
    cacheLookup logoReq.url ([] : Cache) = none ∧
    ((cacheFirst altNet
        [(APP_SHELL_CACHE, [("/logo.png", logoResp)]), (RUNTIME_CACHE, [])]
        logoReq).response = some logoResp ∧
     countFetches (cacheFirst altNet
        [(APP_SHELL_CACHE, [("/logo.png", logoResp)]), (RUNTIME_CACHE, [])]
        logoReq).trace = 0) :=
  ⟨by decide, by decide, by decide,
    C7_cacheFirst_shell_hit altNet logoReq logoResp [("/logo.png", logoResp)] []
      (by decide) (by decide) (by decide)⟩

/-- C8: for a SHELL_RESOURCE request whose fetch resolves with response R,
`networkFirst` returns R and leaves the shell generation's entry for the
key equal to R, overwriting any prior entry (the initial store is
arbitrary, so the conclusion in particular holds when a prior entry
existed). Responses are immutable values here, so the stored copy
(`fresh.clone()`) and the returned response are independently readable by
construction, and entry equality is byte-for-byte equality. -/
theorem C8_networkFirst_stores_and_returns (net : Network) (s : CacheStore)
    (req : Request) (r : Response)
    (hnet : net req.url = NetResult.ok r) :
    (networkFirst net s req).response = some r ∧
    genMatch (networkFirst net s req).store APP_SHELL_CACHE req.url = some r := by
  simp [networkFirst, hnet, genMatch_put_open]

/-- Witness for C8: the shell generation already holds a prior entry for
`/` (`goodRoot`), the network returns `altResp`, and after dispatch the
entry equals `altResp` and `altResp` is returned. -/
theorem C8_witness :
    altNet rootReq.url = NetResult.ok altResp ∧
    ((networkFirst altNet store3 rootReq).response = some altResp ∧
     genMatch (networkFirst altNet store3 rootReq).store APP_SHELL_CACHE rootReq.url =
       some altResp) :=
  ⟨rfl, C8_networkFirst_stores_and_returns altNet store3 rootReq altResp rfl⟩

/-- C9: bypass-origin classification is by substring containment, not
exact origin match: any request whose origin contains `googleapis`,
`firebase` or `gstatic` anywhere classifies PASS_THROUGH by the
`url.origin.includes(...)` checks of lines 67-71, and the fetch handler
returns without `respondWith` (the request goes to the network untouched,
with no caching side effect). -/
theorem C9_bypass_substring (req : Request) (net : Network) (s : CacheStore)
    (h : (strIncludes req.origin "googleapis" || strIncludes req.origin "firebase" ||
        strIncludes req.origin "gstatic") = true) :
    classify req = PolicyTag.PASS_THROUGH ∧ fetchHandler net s req = none := by
  have hb : bypassOrigin req.origin = true := h
  by_cases hm : req.method = "GET"
  · exact ⟨by simp [classify, hm, hb], by simp [fetchHandler, hm, hb]⟩
  · exact ⟨by simp [classify, hm], by simp [fetchHandler, hm]⟩

/-- Witness for C9 at an unrelated host that merely embeds `firebase` in
its name. -/
theorem C9_witness :
    (strIncludes sneakyReq.origin "googleapis" ||
      strIncludes sneakyReq.origin "firebase" ||
      strIncludes sneakyReq.origin "gstatic") = true ∧
    (classify sneakyReq = PolicyTag.PASS_THROUGH ∧
     fetchHandler downNet [] sneakyReq = none) :=
  ⟨by decide, C9_bypass_substring sneakyReq downNet [] (by decide)⟩

/-- C10: every install run calls `self.skipWaiting()` (line 26) as its
very first effect, before any shell-population work, for every network
and every initial store — hence independently of the `SKIP_WAITING`
control message, which is the only thing the message handler reacts to
(and with no message received the message handler does nothing). -/
theorem C10_install_skipWaiting_first (net : Network) (s : CacheStore) :
    (installHandler net s).trace.head? = some SWEffect.skipWaiting ∧
    messageHandler none = [] := by
  refine ⟨?_, rfl⟩
  unfold installHandler
  dsimp only
  split <;> rfl

end TeachmateSW
